import Mathlib

/-!
# command-cpp: child process launch and output capture

A shallow embedding of `include/command.hpp` (namespace `process`).

The header talks to Windows through seven calls: `CreatePipe`,
`SetHandleInformation`, `CreateProcess`, `WaitForSingleObject`,
`GetExitCodeProcess`, `ReadFile` and `CloseHandle`.  The operating system is
modelled as an explicit state `OS`: a scripted environment `Env` that decides
what each call answers, and a trace that records every call made, in order.
The functions of the header are translated statement by statement over that
state.  A `std::unique_ptr` is an `Option` (`none` is the null pointer), a
`HANDLE` is a natural number (`0` is the null handle), a `std::string` is a
`String`, the bytes moved by `ReadFile` are a `List Char`.
-/

namespace process

/-! ## Handles, events and the scripted environment -/

/-- A Windows `HANDLE` value. -/
abbrev HANDLE := Nat

/-- The null handle (`NULL`, `nullptr`). -/
def NULL : HANDLE := 0

/-- The flag `HANDLE_FLAG_INHERIT` of `SetHandleInformation`. -/
def HANDLE_FLAG_INHERIT : Nat := 1

/-- The exit code `STILL_ACTIVE` reported for a process that has not terminated. -/
def STILL_ACTIVE : Nat := 259

/-- Return values of `WaitForSingleObject`. -/
inductive WaitResult where
  | WAIT_OBJECT_0
  | WAIT_ABANDONED
  | WAIT_TIMEOUT
  | WAIT_FAILED
deriving DecidableEq, Repr

/-- What one `ReadFile` call answers: the returned `BOOL` and the bytes transferred. -/
structure ReadResult where
  success : Bool
  data : List Char
deriving DecidableEq, Repr

/-- One call into the operating system, with its arguments and its answer. -/
inductive Event where
  | CreatePipe (bInheritHandle : Bool) (result : Option (HANDLE × HANDLE))
  | SetHandleInformation (h : HANDLE) (mask flags : Nat) (ok : Bool)
  | CreateProcess (cmdline : String) (bInheritHandles : Bool) (cwd : String)
      (hStdInput hStdOutput hStdError : HANDLE) (result : Option (HANDLE × HANDLE))
  | WaitForSingleObject (h : HANDLE) (ms : Nat) (result : WaitResult)
  | GetExitCodeProcess (h : HANDLE) (code : Nat)
  | CloseHandle (h : HANDLE)
  | ReadFile (h : HANDLE) (n : Nat) (success : Bool) (data : List Char)
deriving DecidableEq, Repr

/-- The environment of one run: what the collaborators outside the header answer.
`pipeResults`, `setInfoResults` and `waitResults` are consumed one entry per call;
`reads h` is the sequence of answers of the successive `ReadFile` calls on `h`. -/
structure Env where
  absolute : String → Option String
  pipeResults : List (Option (HANDLE × HANDLE))
  setInfoResults : List Bool
  procResult : Option (HANDLE × HANDLE)
  waitResults : List WaitResult
  exit_code : Nat
  reads : HANDLE → List ReadResult
  garbage : List Char

/-- The state of the operating system during a run. `terminated` becomes true
when a wait on the process reports `WAIT_OBJECT_0`. -/
structure OS where
  env : Env
  terminated : Bool
  trace : List Event

/-- The state in which a run starts: nothing called yet, the child not yet seen to terminate. -/
def OS.boot (env : Env) : OS := ⟨env, false, []⟩

/-- Record one call at the end of the trace. -/
def OS.log (os : OS) (e : Event) : OS := { os with trace := os.trace ++ [e] }

/-- `CloseHandle(h)`. -/
def CloseHandle (h : HANDLE) (os : OS) : OS := os.log (Event.CloseHandle h)

/-- `CreatePipe(&r, &w, &sa, 0)`: `some (r, w)` on success, `none` on failure
(the two out-parameters are then left as they were). -/
def CreatePipe (bInheritHandle : Bool) (os : OS) : Option (HANDLE × HANDLE) × OS :=
  match os.env.pipeResults with
  | [] => (none, os.log (Event.CreatePipe bInheritHandle none))
  | res :: rest =>
    (res, { os with env := { os.env with pipeResults := rest },
                    trace := os.trace ++ [Event.CreatePipe bInheritHandle res] })

/-- `SetHandleInformation(h, mask, flags)`. -/
def SetHandleInformation (h : HANDLE) (mask flags : Nat) (os : OS) : Bool × OS :=
  match os.env.setInfoResults with
  | [] => (false, os.log (Event.SetHandleInformation h mask flags false))
  | ok :: rest =>
    (ok, { os with env := { os.env with setInfoResults := rest },
                   trace := os.trace ++ [Event.SetHandleInformation h mask flags ok] })

/-- `CreateProcess(nullptr, cmdline, nullptr, nullptr, bInheritHandles, 0, nullptr, cwd, &si, &pi)`
with `si.dwFlags = STARTF_USESTDHANDLES` and the three standard handles of `si`:
`some (hProcess, hThread)` on success. -/
def CreateProcess (cmdline : String) (bInheritHandles : Bool) (cwd : String)
    (hStdInput hStdOutput hStdError : HANDLE) (os : OS) : Option (HANDLE × HANDLE) × OS :=
  (os.env.procResult,
    os.log (Event.CreateProcess cmdline bInheritHandles cwd hStdInput hStdOutput hStdError
      os.env.procResult))

/-- `WaitForSingleObject(h, ms)`. Once the script of answers is used up the
process is never seen to terminate: every further poll times out. -/
def WaitForSingleObject (h : HANDLE) (ms : Nat) (os : OS) : WaitResult × OS :=
  match os.env.waitResults with
  | [] => (WaitResult.WAIT_TIMEOUT, os.log (Event.WaitForSingleObject h ms WaitResult.WAIT_TIMEOUT))
  | res :: rest =>
    (res, { env := { os.env with waitResults := rest },
            terminated := os.terminated || decide (res = WaitResult.WAIT_OBJECT_0),
            trace := os.trace ++ [Event.WaitForSingleObject h ms res] })

/-- `GetExitCodeProcess(h, &code)`: the child's exit code once it has terminated,
`STILL_ACTIVE` before. The call itself is taken to succeed, as it does on the
handle `CreateProcess` returned. -/
def GetExitCodeProcess (h : HANDLE) (os : OS) : Nat × OS :=
  let code := if os.terminated then os.env.exit_code else STILL_ACTIVE
  (code, os.log (Event.GetExitCodeProcess h code))

/-- `ReadFile(h, msg, n, &len, nullptr)`: answers `(success, msg, len)`. At most `n`
bytes are transferred, to the front of the buffer. Once the script of `h` is used
up the pipe is at end of stream: the call fails and transfers nothing. -/
def ReadFile (h : HANDLE) (msg : List Char) (n : Nat) (os : OS) :
    (Bool × List Char × Nat) × OS :=
  match os.env.reads h with
  | [] => ((false, msg, 0), os.log (Event.ReadFile h n false []))
  | res :: rest =>
    let d := res.data.take n
    ((res.success, d ++ msg.drop d.length, d.length),
      { os with env := { os.env with reads := fun k => if k = h then rest else os.env.reads k },
                trace := os.trace ++ [Event.ReadFile h n res.success d] })

/-! ## The data model of the header -/

/-- Exceptions thrown by the header: `fs::absolute` throws a `filesystem_error`,
`spawn` throws `std::runtime_error{what}`. -/
inductive Exception where
  | runtime_error (what : String)
  | filesystem_error
deriving DecidableEq, Repr

/-- How a call of a function of the header ends: it returns a value, it throws,
it dereferences a null `unique_ptr` (undefined behaviour), or it never returns. -/
inductive Run (α : Type) where
  | returned (a : α)
  | threw (e : Exception)
  | undefined
  | diverges
deriving DecidableEq, Repr

/-- Chain a call on the value a previous call returned. -/
def Run.bind {α β : Type} (r : Run α) (f : α → Run β) : Run β :=
  match r with
  | Run.returned a => f a
  | Run.threw e => Run.threw e
  | Run.undefined => Run.undefined
  | Run.diverges => Run.diverges

/-- `class ChildStdin`. -/
structure ChildStdin where
  r_ : HANDLE
  w_ : HANDLE
deriving DecidableEq, Repr

/-- `class ChildStdout`. -/
structure ChildStdout where
  r_ : HANDLE
  w_ : HANDLE
deriving DecidableEq, Repr

/-- `class ChildStderr`. -/
structure ChildStderr where
  r_ : HANDLE
  w_ : HANDLE
deriving DecidableEq, Repr

/-- `~ChildStdin()`. -/
def ChildStdin.destroy (self : ChildStdin) (os : OS) : OS :=
  CloseHandle self.w_ (CloseHandle self.r_ os)

/-- `~ChildStdout()`. -/
def ChildStdout.destroy (self : ChildStdout) (os : OS) : OS :=
  CloseHandle self.w_ (CloseHandle self.r_ os)

/-- `ChildStdout::close_write`. -/
def ChildStdout.close_write (self : ChildStdout) (os : OS) : OS := CloseHandle self.w_ os

/-- `ChildStdout::get_read`. -/
def ChildStdout.get_read (self : ChildStdout) : HANDLE := self.r_

/-- `~ChildStderr()`. -/
def ChildStderr.destroy (self : ChildStderr) (os : OS) : OS :=
  CloseHandle self.w_ (CloseHandle self.r_ os)

/-- `ChildStderr::close_write`. -/
def ChildStderr.close_write (self : ChildStderr) (os : OS) : OS := CloseHandle self.w_ os

/-- `ChildStderr::get_read`. -/
def ChildStderr.get_read (self : ChildStderr) : HANDLE := self.r_

/-- `class StdioPipes`: three `unique_ptr`s. -/
structure StdioPipes where
  stdin_ : Option ChildStdin
  stdout_ : Option ChildStdout
  stderr_ : Option ChildStderr
deriving DecidableEq, Repr

/-- The implicit destructor of `StdioPipes`: the members are destroyed in reverse
order of declaration, a non-null pointer destroying what it owns. -/
def StdioPipes.destroy (self : StdioPipes) (os : OS) : OS :=
  let os := match self.stderr_ with
    | some e => e.destroy os
    | none => os
  let os := match self.stdout_ with
    | some o => o.destroy os
    | none => os
  match self.stdin_ with
  | some i => i.destroy os
  | none => os

/-- `struct Output`. -/
structure Output where
  status : Nat
  stdout_str : String
  stderr_str : String
deriving DecidableEq, Repr

/-- `class Process`. -/
structure Process where
  handle_ : HANDLE
  thread_handle_ : HANDLE
deriving DecidableEq, Repr

/-- `~Process()`. -/
def Process.destroy (self : Process) (os : OS) : OS :=
  CloseHandle self.thread_handle_ (CloseHandle self.handle_ os)

/-- `class Child`. -/
structure Child where
  process_ : Option Process
  pipes_ : StdioPipes
deriving DecidableEq, Repr

/-! ## `wait_with_output` -/

/-- The loop `while (WaitForSingleObject(h, 100) != WAIT_OBJECT_0) {}`, for at most
`fuel` polls: `true` when the loop was left, `false` when the polls ran out first. -/
def wait_loop (h : HANDLE) : Nat → OS → Bool × OS
  | 0, os => (false, os)
  | fuel + 1, os =>
    match WaitForSingleObject h 100 os with
    | (res, os) =>
      if res ≠ WaitResult.WAIT_OBJECT_0 then wait_loop h fuel os else (true, os)

/-- The loop
`while (true) { success = ReadFile(h, msg, 4096, &len, nullptr); if (success || len == 0) break; }`
for at most `fuel` reads: the buffer and `len` when the loop was left. -/
def read_loop (h : HANDLE) : Nat → List Char → OS → Option (List Char × Nat) × OS
  | 0, _, os => (none, os)
  | fuel + 1, msg, os =>
    match ReadFile h msg 4096 os with
    | ((success, msg, len), os) =>
      if success || len == 0 then (some (msg, len), os) else read_loop h fuel msg os

/-- `wait_with_output(proc, pipes)`. The three pointers it dereferences must not be
null. The wait loop polls as long as the environment has answers: a script without
`WAIT_OBJECT_0` is a child that never terminates, and the call does not return.
A read loop gets one read more than its pipe has answers, which is always enough,
as the read after the last answer reports end of stream. The buffers `msg` start
with indeterminate content. On return the two by-value parameters are destroyed
(`pipes`, then `proc`; the language does not fix the order between the two). -/
def wait_with_output (proc : Option Process) (pipes : StdioPipes) (os : OS) : Run Output × OS :=
  match proc, pipes.stdout_, pipes.stderr_ with
  | some p, some out, some err =>
    match wait_loop p.handle_ os.env.waitResults.length os with
    | (false, os) => (Run.diverges, os)
    | (true, os) =>
      match GetExitCodeProcess p.handle_ os with
      | (exit_code, os) =>
        let os := out.close_write os
        let os := err.close_write os
        match read_loop out.get_read ((os.env.reads out.get_read).length + 1) os.env.garbage os with
        | (none, os) => (Run.diverges, os)
        | (some (msg, len), os) =>
          let stdout_str := String.mk (msg.take len)
          match read_loop err.get_read ((os.env.reads err.get_read).length + 1) os.env.garbage os with
          | (none, os) => (Run.diverges, os)
          | (some (msg, len), os) =>
            let stderr_str := String.mk (msg.take len)
            let os := pipes.destroy os
            let os := p.destroy os
            (Run.returned ⟨exit_code % 2 ^ 32, stdout_str, stderr_str⟩, os)
  | _, _, _ => (Run.undefined, os)

/-! ## `Command` and `Command::Impl` -/

/-- `class Command::Impl`; a `fs::path` is its string. -/
structure Impl where
  program_ : String
  cwd_ : String
  args_ : List String
deriving DecidableEq, Repr

/-- The invocation line `spawn` builds: `cmd_str.append(program_)`, then for each
argument `cmd_str.append(" ")` and `cmd_str.append(arg)`. -/
def Impl.cmd_str (self : Impl) : String :=
  self.args_.foldl (fun cmd_str arg => (cmd_str.append " ").append arg) ("".append self.program_)

/-- `Command::Impl::spawn`. When it throws, the locals `stderr_` and `stdout_`
are destroyed, in that order. -/
def Impl.spawn (self : Impl) (os : OS) : Run Child × OS :=
  let cmd_str := self.cmd_str
  match os.env.absolute self.cwd_ with
  | none => (Run.threw Exception.filesystem_error, os)
  | some cwd =>
    let stdout_ : ChildStdout := ⟨NULL, NULL⟩
    let stderr_ : ChildStderr := ⟨NULL, NULL⟩
    match CreatePipe true os with
    | (none, os) =>
      (Run.threw (Exception.runtime_error "CreatePipe failed"),
        stdout_.destroy (stderr_.destroy os))
    | (some (r, w), os) =>
      let stdout_ : ChildStdout := ⟨r, w⟩
      match CreatePipe true os with
      | (none, os) =>
        (Run.threw (Exception.runtime_error "CreatePipe failed"),
          stdout_.destroy (stderr_.destroy os))
      | (some (r, w), os) =>
        let stderr_ : ChildStderr := ⟨r, w⟩
        match SetHandleInformation stdout_.r_ HANDLE_FLAG_INHERIT 0 os with
        | (false, os) =>
          (Run.threw (Exception.runtime_error "SetHandleInformation failed"),
            stdout_.destroy (stderr_.destroy os))
        | (true, os) =>
          match SetHandleInformation stderr_.r_ HANDLE_FLAG_INHERIT 0 os with
          | (false, os) =>
            (Run.threw (Exception.runtime_error "SetHandleInformation failed"),
              stdout_.destroy (stderr_.destroy os))
          | (true, os) =>
            match CreateProcess cmd_str true cwd NULL stdout_.w_ stderr_.w_ os with
            | (none, os) =>
              (Run.threw (Exception.runtime_error "CreateProcess failed"),
                stdout_.destroy (stderr_.destroy os))
            | (some (hProcess, hThread), os) =>
              let proc : Process := ⟨hProcess, hThread⟩
              (Run.returned ⟨some proc, ⟨none, some stdout_, some stderr_⟩⟩, os)

/-- `Command::Impl::output`. The `Child` it holds is moved from before it is
destroyed, so its destructor closes nothing. -/
def Impl.output (self : Impl) (os : OS) : Run Output × OS :=
  match self.spawn os with
  | (Run.returned child, os) => wait_with_output child.process_ child.pipes_ os
  | (Run.threw e, os) => (Run.threw e, os)
  | (Run.undefined, os) => (Run.undefined, os)
  | (Run.diverges, os) => (Run.diverges, os)

/-- `class Command`: the `unique_ptr<Impl> impl_`. -/
structure Command where
  impl_ : Option Impl
deriving DecidableEq, Repr

/-- `Command::create`. -/
def Command.create (program : String) : Command := ⟨some ⟨program, "", []⟩⟩

/-- `Command::current_dir`: `impl_->cwd_ = currnet_dir; return *this;`. -/
def Command.current_dir (self : Command) (currnet_dir : String) : Run Command :=
  match self.impl_ with
  | none => Run.undefined
  | some impl => Run.returned ⟨some { impl with cwd_ := currnet_dir }⟩

/-- `Command::arg`: `impl_->args_.emplace_back(arg); return *this;`. -/
def Command.arg (self : Command) (arg : String) : Run Command :=
  match self.impl_ with
  | none => Run.undefined
  | some impl => Run.returned ⟨some { impl with args_ := impl.args_ ++ [arg] }⟩

/-- `Command::args`: `impl_->args_.insert(impl_->args_.end(), args.begin(), args.end());
return *this;`. -/
def Command.args (self : Command) (args : List String) : Run Command :=
  match self.impl_ with
  | none => Run.undefined
  | some impl => Run.returned ⟨some { impl with args_ := impl.args_ ++ args }⟩

/-- `Command::build`: `return std::move(impl_);`, the pointer handed out and the
builder as it is left, with a null `impl_`. -/
def Command.build (self : Command) : Option Impl × Command := (self.impl_, ⟨none⟩)

/-! ## Scenarios -/

/-- The builder chain of `examples/basic.cc` up to `build()`. -/
def basic_chain : Run Command :=
  (((Command.create "cmd.exe").current_dir "./").bind
    (fun c => c.arg "/c")).bind (fun c => (c.arg "echo").bind (fun c => c.args ["Hello", "World"]))

/-- An environment in which everything succeeds: the pipes get the handles 4, 5
and 6, 7, the process 8 and its thread 9, the second poll sees the child
terminated with exit code `code`, and the two pipes deliver `chunks_out` and
`chunks_err`, one chunk per successful read. -/
def env_ok (code : Nat) (chunks_out chunks_err : List (List Char)) : Env where
  absolute := fun p => some ("C:/work/" ++ p)
  pipeResults := [some (4, 5), some (6, 7)]
  setInfoResults := [true, true]
  procResult := some (8, 9)
  waitResults := [WaitResult.WAIT_TIMEOUT, WaitResult.WAIT_OBJECT_0]
  exit_code := code
  reads := fun h =>
    if h = 4 then chunks_out.map (fun d => ⟨true, d⟩)
    else if h = 6 then chunks_err.map (fun d => ⟨true, d⟩)
    else []
  garbage := []

/-- The `Impl` of `cmd.exe /c echo Hello World`. -/
def echo_impl : Impl := ⟨"cmd.exe", "./", ["/c", "echo", "Hello", "World"]⟩

/-- A call that reports failure: a pipe that could not be created, a handle
that could not be marked, a process that could not be created. -/
def Event.failed : Event → Bool
  | Event.CreatePipe _ none => true
  | Event.SetHandleInformation _ _ _ false => true
  | Event.CreateProcess _ _ _ _ _ _ none => true
  | _ => false

/-- A `CloseHandle` call. -/
def Event.isClose : Event → Bool
  | Event.CloseHandle _ => true
  | _ => false

/-! ## What `spawn` does, path by path -/

/-- The calls `spawn` makes and what it answers, for each of its seven paths. -/
theorem spawn_cases (self : Impl) (env : Env) :
    (env.absolute self.cwd_ = none ∧
      self.spawn (OS.boot env) = (Run.threw Exception.filesystem_error, OS.boot env)) ∨
    (∃ cwd, env.absolute self.cwd_ = some cwd ∧
      (((self.spawn (OS.boot env)).1 = Run.threw (Exception.runtime_error "CreatePipe failed") ∧
        (self.spawn (OS.boot env)).2.trace =
          [Event.CreatePipe true none, Event.CloseHandle NULL, Event.CloseHandle NULL,
            Event.CloseHandle NULL, Event.CloseHandle NULL]) ∨
      (∃ r1 w1,
        (self.spawn (OS.boot env)).1 = Run.threw (Exception.runtime_error "CreatePipe failed") ∧
        (self.spawn (OS.boot env)).2.trace =
          [Event.CreatePipe true (some (r1, w1)), Event.CreatePipe true none,
            Event.CloseHandle NULL, Event.CloseHandle NULL,
            Event.CloseHandle r1, Event.CloseHandle w1]) ∨
      (∃ r1 w1 r2 w2,
        (self.spawn (OS.boot env)).1 =
          Run.threw (Exception.runtime_error "SetHandleInformation failed") ∧
        (self.spawn (OS.boot env)).2.trace =
          [Event.CreatePipe true (some (r1, w1)), Event.CreatePipe true (some (r2, w2)),
            Event.SetHandleInformation r1 HANDLE_FLAG_INHERIT 0 false,
            Event.CloseHandle r2, Event.CloseHandle w2,
            Event.CloseHandle r1, Event.CloseHandle w1]) ∨
      (∃ r1 w1 r2 w2,
        (self.spawn (OS.boot env)).1 =
          Run.threw (Exception.runtime_error "SetHandleInformation failed") ∧
        (self.spawn (OS.boot env)).2.trace =
          [Event.CreatePipe true (some (r1, w1)), Event.CreatePipe true (some (r2, w2)),
            Event.SetHandleInformation r1 HANDLE_FLAG_INHERIT 0 true,
            Event.SetHandleInformation r2 HANDLE_FLAG_INHERIT 0 false,
            Event.CloseHandle r2, Event.CloseHandle w2,
            Event.CloseHandle r1, Event.CloseHandle w1]) ∨
      (∃ r1 w1 r2 w2,
        (self.spawn (OS.boot env)).1 =
          Run.threw (Exception.runtime_error "CreateProcess failed") ∧
        (self.spawn (OS.boot env)).2.trace =
          [Event.CreatePipe true (some (r1, w1)), Event.CreatePipe true (some (r2, w2)),
            Event.SetHandleInformation r1 HANDLE_FLAG_INHERIT 0 true,
            Event.SetHandleInformation r2 HANDLE_FLAG_INHERIT 0 true,
            Event.CreateProcess self.cmd_str true cwd NULL w1 w2 none,
            Event.CloseHandle r2, Event.CloseHandle w2,
            Event.CloseHandle r1, Event.CloseHandle w1]) ∨
      (∃ r1 w1 r2 w2 hProcess hThread,
        (self.spawn (OS.boot env)).1 =
          Run.returned ⟨some ⟨hProcess, hThread⟩, ⟨none, some ⟨r1, w1⟩, some ⟨r2, w2⟩⟩⟩ ∧
        (self.spawn (OS.boot env)).2.trace =
          [Event.CreatePipe true (some (r1, w1)), Event.CreatePipe true (some (r2, w2)),
            Event.SetHandleInformation r1 HANDLE_FLAG_INHERIT 0 true,
            Event.SetHandleInformation r2 HANDLE_FLAG_INHERIT 0 true,
            Event.CreateProcess self.cmd_str true cwd NULL w1 w2 (some (hProcess, hThread))] ∧
        (self.spawn (OS.boot env)).2.terminated = false ∧
        (self.spawn (OS.boot env)).2.env.waitResults = env.waitResults ∧
        (self.spawn (OS.boot env)).2.env.exit_code = env.exit_code ∧
        (self.spawn (OS.boot env)).2.env.reads = env.reads ∧
        (self.spawn (OS.boot env)).2.env.garbage = env.garbage))) := by
  generalize hres : self.spawn (OS.boot env) = res
  cases habs : env.absolute self.cwd_ with
  | none =>
    left
    simp [Impl.spawn, OS.boot, habs] at hres
    simp [← hres, OS.boot]
  | some cwd =>
    right
    refine ⟨cwd, rfl, ?_⟩
    rcases hp : env.pipeResults with _ | ⟨_ | ⟨r1, w1⟩, _ | ⟨_ | ⟨r2, w2⟩, ps⟩⟩ <;>
    rcases hs : env.setInfoResults with _ | ⟨_ | _, _ | ⟨_ | _, ss⟩⟩ <;>
    rcases hc : env.procResult with _ | ⟨hProcess, hThread⟩ <;>
    simp only [Impl.spawn, OS.boot, habs, hp, hs, hc, CreatePipe, SetHandleInformation,
      CreateProcess, OS.log, ChildStdout.destroy, ChildStderr.destroy, CloseHandle] at hres <;>
    subst hres <;>
    first
      | exact Or.inl ⟨rfl, rfl⟩
      | exact Or.inr (Or.inl ⟨_, _, rfl, rfl⟩)
      | exact Or.inr (Or.inr (Or.inl ⟨_, _, _, _, rfl, rfl⟩))
      | exact Or.inr (Or.inr (Or.inr (Or.inl ⟨_, _, _, _, rfl, rfl⟩)))
      | exact Or.inr (Or.inr (Or.inr (Or.inr (Or.inl ⟨_, _, _, _, rfl, rfl⟩))))
      | exact Or.inr (Or.inr (Or.inr (Or.inr (Or.inr
          ⟨_, _, _, _, _, _, rfl, rfl, rfl, rfl, rfl, rfl, rfl⟩))))

/-! ## The two loops of `wait_with_output` -/

/-- One poll adds itself to the trace, leaves the exit code, the pipes and the
buffers alone, consumes one answer, and marks the child terminated when it
answers `WAIT_OBJECT_0`. -/
theorem WaitForSingleObject_spec (h : HANDLE) (ms : Nat) (os : OS) :
    (WaitForSingleObject h ms os).2.trace =
        os.trace ++ [Event.WaitForSingleObject h ms (WaitForSingleObject h ms os).1] ∧
      (WaitForSingleObject h ms os).2.env.exit_code = os.env.exit_code ∧
      (WaitForSingleObject h ms os).2.env.reads = os.env.reads ∧
      (WaitForSingleObject h ms os).2.env.garbage = os.env.garbage ∧
      (WaitForSingleObject h ms os).2.env.waitResults = os.env.waitResults.tail ∧
      (WaitForSingleObject h ms os).1 = os.env.waitResults.headD WaitResult.WAIT_TIMEOUT ∧
      ((WaitForSingleObject h ms os).1 = WaitResult.WAIT_OBJECT_0 →
        (WaitForSingleObject h ms os).2.terminated = true) := by
  rcases hw : os.env.waitResults with _ | ⟨r, rest⟩
  · simp [WaitForSingleObject, hw, OS.log]
  · simp only [WaitForSingleObject, hw]
    simp
    exact fun hr => Or.inr hr

/-- One turn of the wait loop. -/
theorem wait_loop_succ (h : HANDLE) (fuel : Nat) (os : OS) :
    wait_loop h (fuel + 1) os =
      if (WaitForSingleObject h 100 os).1 ≠ WaitResult.WAIT_OBJECT_0
      then wait_loop h fuel (WaitForSingleObject h 100 os).2
      else (true, (WaitForSingleObject h 100 os).2) := rfl

/-- The wait loop only polls the process: it adds `WaitForSingleObject` calls to
the trace, leaves the rest of the environment alone, and when it is left the last
poll answered `WAIT_OBJECT_0` and the child has terminated. -/
theorem wait_loop_spec (h : HANDLE) (fuel : Nat) (os : OS) :
    ∃ ws, (wait_loop h fuel os).2.trace = os.trace ++ ws ∧
      (∀ e ∈ ws, ∃ r, e = Event.WaitForSingleObject h 100 r) ∧
      (wait_loop h fuel os).2.env.exit_code = os.env.exit_code ∧
      (wait_loop h fuel os).2.env.reads = os.env.reads ∧
      (wait_loop h fuel os).2.env.garbage = os.env.garbage ∧
      ((wait_loop h fuel os).1 = true →
        (wait_loop h fuel os).2.terminated = true ∧
        ∃ ws0, ws = ws0 ++ [Event.WaitForSingleObject h 100 WaitResult.WAIT_OBJECT_0]) := by
  induction fuel generalizing os with
  | zero => exact ⟨[], by simp [wait_loop]⟩
  | succ n ih =>
    obtain ⟨w1, w2, w3, w4, _, _, w7⟩ := WaitForSingleObject_spec h 100 os
    rw [wait_loop_succ]
    by_cases hr : (WaitForSingleObject h 100 os).1 = WaitResult.WAIT_OBJECT_0
    · refine ⟨[Event.WaitForSingleObject h 100 WaitResult.WAIT_OBJECT_0], ?_⟩
      simp only [hr, ne_eq, not_true_eq_false, if_false]
      rw [hr] at w1
      exact ⟨w1, by simp, w2, w3, w4, fun _ => ⟨w7 hr, [], rfl⟩⟩
    · obtain ⟨ws, h1, h2, h3, h4, h5, h6⟩ := ih (WaitForSingleObject h 100 os).2
      refine ⟨Event.WaitForSingleObject h 100 (WaitForSingleObject h 100 os).1 :: ws, ?_⟩
      simp only [hr, ne_eq, not_false_eq_true, if_true]
      refine ⟨by rw [h1, w1]; simp, ?_, h3.trans w2, h4.trans w3, h5.trans w4, ?_⟩
      · intro e he
        rcases List.mem_cons.mp he with rfl | he
        · exact ⟨_, rfl⟩
        · exact h2 e he
      · intro ht
        obtain ⟨t1, ws0, rfl⟩ := h6 ht
        exact ⟨t1, _ :: ws0, rfl⟩

/-- The wait loop is left as soon as the environment has a poll that answers
`WAIT_OBJECT_0` within the polls allowed. -/
theorem wait_loop_returns (h : HANDLE) (fuel : Nat) (os : OS)
    (hmem : WaitResult.WAIT_OBJECT_0 ∈ os.env.waitResults)
    (hfuel : os.env.waitResults.length ≤ fuel) :
    (wait_loop h fuel os).1 = true := by
  induction fuel generalizing os with
  | zero =>
    have : os.env.waitResults = [] := List.length_eq_zero.mp (Nat.le_zero.mp hfuel)
    rw [this] at hmem
    exact absurd hmem (List.not_mem_nil _)
  | succ n ih =>
    obtain ⟨_, _, _, _, w5, w6, _⟩ := WaitForSingleObject_spec h 100 os
    rw [wait_loop_succ]
    by_cases hr : (WaitForSingleObject h 100 os).1 = WaitResult.WAIT_OBJECT_0
    · simp [hr]
    · simp only [hr, ne_eq, not_false_eq_true, if_true]
      rcases hw : os.env.waitResults with _ | ⟨r, rest⟩
      · rw [hw] at hmem
        exact absurd hmem (List.not_mem_nil _)
      · rw [hw] at hmem hfuel w5 w6
        apply ih
        · rw [w5]
          rcases List.mem_cons.mp hmem with h0 | h0
          · exact absurd (w6.trans h0.symm) hr
          · exact h0
        · rw [w5]
          simpa using hfuel

/-- The wait loop is never left when no poll answers `WAIT_OBJECT_0`, however
many polls it is allowed. -/
theorem wait_loop_never (h : HANDLE) (fuel : Nat) (os : OS)
    (hnot : WaitResult.WAIT_OBJECT_0 ∉ os.env.waitResults) :
    (wait_loop h fuel os).1 = false := by
  induction fuel generalizing os with
  | zero => rfl
  | succ n ih =>
    obtain ⟨_, _, _, _, w5, w6, _⟩ := WaitForSingleObject_spec h 100 os
    rw [wait_loop_succ]
    have hr : (WaitForSingleObject h 100 os).1 ≠ WaitResult.WAIT_OBJECT_0 := by
      rw [w6]
      rcases hw : os.env.waitResults with _ | ⟨r, rest⟩
      · simp
      · rw [hw] at hnot
        simp only [List.headD_cons]
        exact fun h0 => hnot (h0 ▸ List.mem_cons_self _ _)
    simp only [hr, ne_eq, not_false_eq_true, if_true]
    apply ih
    rw [w5]
    exact fun hmem => hnot (List.mem_of_mem_tail hmem)

/-- One read adds itself to the trace, leaves the buffers' initial content and
the other pipes alone, and consumes one answer of its own pipe. -/
theorem ReadFile_spec (h : HANDLE) (msg : List Char) (n : Nat) (os : OS) :
    (∃ s d, (ReadFile h msg n os).2.trace = os.trace ++ [Event.ReadFile h n s d]) ∧
      (ReadFile h msg n os).2.env.garbage = os.env.garbage ∧
      (∀ k, k ≠ h → (ReadFile h msg n os).2.env.reads k = os.env.reads k) ∧
      (ReadFile h msg n os).2.env.reads h = (os.env.reads h).tail ∧
      (os.env.reads h = [] →
        (ReadFile h msg n os).1.1 = false ∧ (ReadFile h msg n os).1.2.2 = 0) := by
  rcases hrd : os.env.reads h with _ | ⟨r, rest⟩
  · simp [ReadFile, hrd, OS.log]
  · refine ⟨⟨r.success, r.data.take n, ?_⟩, ?_, ?_, ?_, ?_⟩ <;> simp [ReadFile, hrd]
    intro k hk
    simp [hk]

/-- One turn of a read loop. -/
theorem read_loop_succ (h : HANDLE) (fuel : Nat) (msg : List Char) (os : OS) :
    read_loop h (fuel + 1) msg os =
      if ((ReadFile h msg 4096 os).1.1 || (ReadFile h msg 4096 os).1.2.2 == 0) = true
      then (some ((ReadFile h msg 4096 os).1.2.1, (ReadFile h msg 4096 os).1.2.2),
        (ReadFile h msg 4096 os).2)
      else read_loop h fuel (ReadFile h msg 4096 os).1.2.1 (ReadFile h msg 4096 os).2 := rfl

/-- A read loop only reads its own handle: it adds `ReadFile` calls on `h` to
the trace and leaves the scripts of the other pipes alone. -/
theorem read_loop_spec (h : HANDLE) (fuel : Nat) (msg : List Char) (os : OS) :
    ∃ rs, (read_loop h fuel msg os).2.trace = os.trace ++ rs ∧
      (∀ e ∈ rs, ∃ s d, e = Event.ReadFile h 4096 s d) ∧
      (read_loop h fuel msg os).2.env.garbage = os.env.garbage ∧
      (∀ k, k ≠ h → (read_loop h fuel msg os).2.env.reads k = os.env.reads k) ∧
      ((read_loop h fuel msg os).1 ≠ none → rs ≠ []) := by
  induction fuel generalizing os msg with
  | zero => exact ⟨[], by simp [read_loop]⟩
  | succ n ih =>
    obtain ⟨⟨s, d, r1⟩, r2, r3, _, _⟩ := ReadFile_spec h msg 4096 os
    rw [read_loop_succ]
    by_cases hbr : ((ReadFile h msg 4096 os).1.1 || (ReadFile h msg 4096 os).1.2.2 == 0) = true
    · refine ⟨[Event.ReadFile h 4096 s d], ?_⟩
      rw [if_pos hbr]
      exact ⟨r1, by simp, r2, r3, by simp⟩
    · obtain ⟨rs, h1, h2, h3, h4, _⟩ :=
        ih (ReadFile h msg 4096 os).1.2.1 (ReadFile h msg 4096 os).2
      refine ⟨Event.ReadFile h 4096 s d :: rs, ?_⟩
      rw [if_neg hbr]
      refine ⟨by rw [h1, r1]; simp, ?_, h3.trans r2, ?_, by simp⟩
      · intro e he
        rcases List.mem_cons.mp he with rfl | he
        · exact ⟨_, _, rfl⟩
        · exact h2 e he
      · intro k hk
        rw [h4 k hk, r3 k hk]

/-- A read loop that may read once more than its pipe has answers is always left. -/
theorem read_loop_returns (h : HANDLE) (fuel : Nat) (msg : List Char) (os : OS)
    (hfuel : (os.env.reads h).length < fuel) :
    (read_loop h fuel msg os).1 ≠ none := by
  induction fuel generalizing os msg with
  | zero => exact absurd hfuel (Nat.not_lt_zero _)
  | succ n ih =>
    obtain ⟨_, _, _, r4, r5⟩ := ReadFile_spec h msg 4096 os
    rw [read_loop_succ]
    by_cases hbr : ((ReadFile h msg 4096 os).1.1 || (ReadFile h msg 4096 os).1.2.2 == 0) = true
    · rw [if_pos hbr]
      simp
    · rw [if_neg hbr]
      apply ih
      rw [r4]
      rcases hrd : os.env.reads h with _ | ⟨r, rest⟩
      · exfalso
        apply hbr
        simp [(r5 hrd).2]
      · rw [hrd] at hfuel
        simpa using hfuel

/-! ## What `wait_with_output` does -/

/-- The calls of one run of `wait_with_output` on non-null pointers, in order.
Either no poll ever answers `WAIT_OBJECT_0` and the run only polls, or the run
returns and its calls are: the polls, the last of which answers `WAIT_OBJECT_0`;
the exit-code query, which gets the child's exit code; the close of the stdout
write-end and of the stderr write-end; one read or more of the stdout read-end;
one read or more of the stderr read-end; the closes made by the destructors. -/
theorem wait_with_output_shape (p : Process) (sin : Option ChildStdin) (out : ChildStdout)
    (err : ChildStderr) (os : OS) :
    ((wait_loop p.handle_ os.env.waitResults.length os).1 = false ∧
      (wait_with_output (some p) ⟨sin, some out, some err⟩ os).1 = Run.diverges ∧
      ∃ ws, (wait_with_output (some p) ⟨sin, some out, some err⟩ os).2.trace = os.trace ++ ws ∧
        ∀ e ∈ ws, ∃ r, e = Event.WaitForSingleObject p.handle_ 100 r) ∨
    ((wait_loop p.handle_ os.env.waitResults.length os).1 = true ∧
      ∃ ws rs1 rs2 cl stdout_str stderr_str,
        (wait_with_output (some p) ⟨sin, some out, some err⟩ os).1 =
          Run.returned ⟨os.env.exit_code % 2 ^ 32, stdout_str, stderr_str⟩ ∧
        (wait_with_output (some p) ⟨sin, some out, some err⟩ os).2.trace =
          os.trace ++ ws ++
            [Event.WaitForSingleObject p.handle_ 100 WaitResult.WAIT_OBJECT_0,
              Event.GetExitCodeProcess p.handle_ os.env.exit_code,
              Event.CloseHandle out.w_, Event.CloseHandle err.w_] ++ rs1 ++ rs2 ++ cl ∧
        (∀ e ∈ ws, ∃ r, e = Event.WaitForSingleObject p.handle_ 100 r) ∧
        (∀ e ∈ rs1, ∃ s d, e = Event.ReadFile out.r_ 4096 s d) ∧ rs1 ≠ [] ∧
        (∀ e ∈ rs2, ∃ s d, e = Event.ReadFile err.r_ 4096 s d) ∧ rs2 ≠ [] ∧
        (∀ e ∈ cl, ∃ h, e = Event.CloseHandle h) ∧
        ∃ mid, cl =
          [Event.CloseHandle err.r_, Event.CloseHandle err.w_, Event.CloseHandle out.r_,
            Event.CloseHandle out.w_] ++ mid ++
          [Event.CloseHandle p.handle_, Event.CloseHandle p.thread_handle_]) := by
  generalize hres : wait_with_output (some p) ⟨sin, some out, some err⟩ os = res
  simp only [wait_with_output] at hres
  obtain ⟨ws, t1, t2, t3, t4, t5, t6⟩ := wait_loop_spec p.handle_ os.env.waitResults.length os
  rcases hwl : wait_loop p.handle_ os.env.waitResults.length os with ⟨b, os1⟩
  rw [hwl] at hres t1 t3 t4 t5 t6
  cases b with
  | false =>
    left
    simp only at hres
    subst hres
    exact ⟨rfl, rfl, ws, t1, t2⟩
  | true =>
    right
    obtain ⟨tt, ws0, rfl⟩ := t6 rfl
    simp only at tt t1 t3 t4 t5 hres
    have hcode : (GetExitCodeProcess p.handle_ os1).1 = os.env.exit_code := by
      simp [GetExitCodeProcess, tt, t3]
    have e2 : (err.close_write (out.close_write (GetExitCodeProcess p.handle_ os1).2)).env
        = os1.env := rfl
    have tr2 : (err.close_write (out.close_write (GetExitCodeProcess p.handle_ os1).2)).trace
        = os1.trace ++ [Event.GetExitCodeProcess p.handle_ os.env.exit_code,
            Event.CloseHandle out.w_, Event.CloseHandle err.w_] := by
      simp [GetExitCodeProcess, tt, t3, ChildStdout.close_write, ChildStderr.close_write,
        CloseHandle, OS.log]
    rw [hcode] at hres
    generalize err.close_write (out.close_write (GetExitCodeProcess p.handle_ os1).2) = os2
      at hres e2 tr2
    obtain ⟨rs1, a1, a2, a3, a4, a5⟩ :=
      read_loop_spec out.get_read ((os2.env.reads out.get_read).length + 1) os2.env.garbage os2
    have a6 := read_loop_returns out.get_read ((os2.env.reads out.get_read).length + 1)
      os2.env.garbage os2 (Nat.lt_succ_self _)
    rcases hr1 : read_loop out.get_read ((os2.env.reads out.get_read).length + 1)
      os2.env.garbage os2 with ⟨_ | ⟨msg, len⟩, os3⟩
    · rw [hr1] at a6
      exact absurd rfl a6
    rw [hr1] at hres a1 a3 a4 a5
    simp only at hres a1 a3 a4 a5
    obtain ⟨rs2, b1, b2, b3, b4, b5⟩ :=
      read_loop_spec err.get_read ((os3.env.reads err.get_read).length + 1) os3.env.garbage os3
    have b6 := read_loop_returns err.get_read ((os3.env.reads err.get_read).length + 1)
      os3.env.garbage os3 (Nat.lt_succ_self _)
    rcases hr2 : read_loop err.get_read ((os3.env.reads err.get_read).length + 1)
      os3.env.garbage os3 with ⟨_ | ⟨msg2, len2⟩, os4⟩
    · rw [hr2] at b6
      exact absurd rfl b6
    rw [hr2] at hres b1 b3 b4 b5
    simp only at hres b1 b3 b4 b5
    subst hres
    refine ⟨rfl, ws0, rs1, rs2,
      [Event.CloseHandle err.r_, Event.CloseHandle err.w_, Event.CloseHandle out.r_,
        Event.CloseHandle out.w_] ++
      (match sin with
        | some i => [Event.CloseHandle i.r_, Event.CloseHandle i.w_]
        | none => []) ++
      [Event.CloseHandle p.handle_, Event.CloseHandle p.thread_handle_],
      _, _, rfl, ?_, ?_, a2, a5 (by simp), b2, b5 (by simp), ?_, _, rfl⟩
    · cases sin <;>
      simp [Process.destroy, StdioPipes.destroy, ChildStdout.destroy, ChildStderr.destroy,
        ChildStdin.destroy, CloseHandle, OS.log, b1, a1, tr2, t1]
    · intro e he
      exact t2 e (List.mem_append_left _ he)
    · intro e he
      cases sin <;> simp at he <;> rcases he with rfl | rfl | rfl | rfl | rfl | he <;>
        first | exact ⟨_, rfl⟩ | skip
      all_goals rcases he with rfl | rfl | rfl <;> exact ⟨_, rfl⟩

/-! ## The invocation line -/

/-- The append loop of `spawn`, on the characters: the accumulator followed by
each argument in order, each behind one space. -/
theorem cmd_str_loop_data (args : List String) (acc : String) :
    (args.foldl (fun cmd_str arg => (cmd_str.append " ").append arg) acc).data =
      acc.data ++ (args.map (fun a => ' ' :: a.data)).flatten := by
  induction args generalizing acc with
  | nil => simp
  | cons a rest ih =>
    rw [List.foldl_cons, ih]
    simp [String.append]

/-- The invocation line is the program followed by each argument behind one space. -/
theorem cmd_str_eq (self : Impl) :
    self.cmd_str = self.program_ ++ String.join (self.args_.map (fun a => " " ++ a)) := by
  apply String.ext
  rw [Impl.cmd_str, cmd_str_loop_data]
  simp [String.data_join, String.append, List.map_map, Function.comp_def]

/-- Claim C3. The invocation line that `spawn` hands to `CreateProcess` is the program
followed by, for each argument in list order, one space and that argument, with
nothing quoted or escaped; with no arguments it is the program alone. -/
theorem spawn_invocation_line (self : Impl) (env : Env) (cmdline cwd : String)
    (b : Bool) (i o e : HANDLE) (r : Option (HANDLE × HANDLE))
    (h : Event.CreateProcess cmdline b cwd i o e r ∈ (self.spawn (OS.boot env)).2.trace) :
    cmdline = self.program_ ++ String.join (self.args_.map (fun a => " " ++ a)) ∧
      (self.args_ = [] → cmdline = self.program_) := by
  have hc : cmdline = self.cmd_str := by
    rcases spawn_cases self env with ⟨_, h0⟩ | ⟨cwd0, _, ⟨_, h1⟩ | ⟨_, _, _, h1⟩ |
      ⟨_, _, _, _, _, h1⟩ | ⟨_, _, _, _, _, h1⟩ | ⟨_, _, _, _, _, h1⟩ |
      ⟨_, _, _, _, _, _, _, h1, _⟩⟩
    · rw [h0] at h
      simp [OS.boot] at h
    all_goals
      rw [h1] at h
      simp at h
    · exact h.1
    · exact h.1
  refine ⟨hc.trans (cmd_str_eq self), fun hnil => ?_⟩
  rw [hc, cmd_str_eq, hnil]
  apply String.ext
  simp [String.join]

/-- Claim C3, at the chain of `examples/basic.cc`: `create("cmd.exe")`, `arg("/c")`,
`arg("echo")`, `args({"Hello", "World"})` builds the line `cmd.exe /c echo Hello World`. -/
theorem spawn_invocation_line_witness :
    (((Command.create "cmd.exe").arg "/c").bind (fun c => (c.arg "echo").bind
        (fun c => c.args ["Hello", "World"]))) =
        Run.returned ⟨some ⟨"cmd.exe", "", ["/c", "echo", "Hello", "World"]⟩⟩ ∧
      Event.CreateProcess "cmd.exe /c echo Hello World" true "C:/work/" 0 5 7 (some (8, 9)) ∈
        ((⟨"cmd.exe", "", ["/c", "echo", "Hello", "World"]⟩ : Impl).spawn
          (OS.boot (env_ok 0 [] []))).2.trace ∧
      "cmd.exe /c echo Hello World" =
        "cmd.exe" ++ String.join (["/c", "echo", "Hello", "World"].map (fun a => " " ++ a)) :=
  ⟨by decide, by decide,
    (spawn_invocation_line ⟨"cmd.exe", "", ["/c", "echo", "Hello", "World"]⟩ (env_ok 0 [] [])
      "cmd.exe /c echo Hello World" "C:/work/" true 0 5 7 (some (8, 9)) (by decide)).1⟩

/-! ## The builder -/

/-- The chain of `examples/basic.cc` builds the `Impl` of `cmd.exe /c echo Hello World`. -/
theorem basic_chain_builds : basic_chain = Run.returned ⟨some echo_impl⟩ := by
  decide

/-- Claim C7. `create(p)` gives a builder with program `p`, no argument and the empty
working directory; on a builder whose `impl_` is not null, `arg(a)` appends `a`
to the argument list, `args(xs)` appends the elements of `xs` in order, and
`current_dir(d)` sets the working directory to `d`, each leaving the other two
fields as they were. -/
theorem builder_accumulates (p a d : String) (xs : List String) (impl : Impl) :
    Command.create p = ⟨some ⟨p, "", []⟩⟩ ∧
      Command.arg ⟨some impl⟩ a =
        Run.returned ⟨some ⟨impl.program_, impl.cwd_, impl.args_ ++ [a]⟩⟩ ∧
      Command.args ⟨some impl⟩ xs =
        Run.returned ⟨some ⟨impl.program_, impl.cwd_, impl.args_ ++ xs⟩⟩ ∧
      Command.current_dir ⟨some impl⟩ d =
        Run.returned ⟨some ⟨impl.program_, d, impl.args_⟩⟩ :=
  ⟨rfl, rfl, rfl, rfl⟩

/-- Claim C6 as stated fails: after `build()`, `arg` does not throw; it dereferences
the null `impl_`. -/
theorem arg_after_build_not_rejected :
    ¬ ∃ e, Command.arg (Command.build (Command.create "cmd.exe")).2 "/c" = Run.threw e := by
  rintro ⟨e, he⟩
  simp [Command.arg, Command.build] at he

/-- Claim C6, amended. `build()` hands out the `Impl` the builder held and leaves the
builder with a null `impl_`; a later `arg`, `args` or `current_dir` on that builder
makes no check and throws nothing: it dereferences the null pointer, which is
undefined behaviour. -/
theorem mutation_after_build_undefined (c : Command) (a d : String) (xs : List String) :
    (Command.build c).1 = c.impl_ ∧
      (Command.build c).2.impl_ = none ∧
      Command.arg (Command.build c).2 a = Run.undefined ∧
      Command.args (Command.build c).2 xs = Run.undefined ∧
      Command.current_dir (Command.build c).2 d = Run.undefined :=
  ⟨rfl, rfl, rfl, rfl, rfl⟩

/-! ## `spawn`: wiring and failure -/

/-- Claim C10. When `spawn` calls `CreateProcess`, the four calls before it are the
creation of the stdout pipe, the creation of the stderr pipe, and the successful
clearing of `HANDLE_FLAG_INHERIT` on the read-end of each; the child's standard
output and standard error are the two write-ends and its standard input is null.
When marking a read-end fails, `spawn` throws and `CreateProcess` is not called. -/
theorem spawn_wiring (self : Impl) (env : Env) :
    (∀ cmdline b cwd i o e r,
      Event.CreateProcess cmdline b cwd i o e r ∈ (self.spawn (OS.boot env)).2.trace →
      ∃ r1 w1 r2 w2 post,
        (self.spawn (OS.boot env)).2.trace =
          [Event.CreatePipe true (some (r1, w1)), Event.CreatePipe true (some (r2, w2)),
            Event.SetHandleInformation r1 HANDLE_FLAG_INHERIT 0 true,
            Event.SetHandleInformation r2 HANDLE_FLAG_INHERIT 0 true,
            Event.CreateProcess cmdline b cwd i o e r] ++ post ∧
        i = NULL ∧ o = w1 ∧ e = w2) ∧
    (∀ h mask flags,
      Event.SetHandleInformation h mask flags false ∈ (self.spawn (OS.boot env)).2.trace →
      (∃ ex, (self.spawn (OS.boot env)).1 = Run.threw ex) ∧
      ∀ cmdline b cwd i o e r,
        Event.CreateProcess cmdline b cwd i o e r ∉ (self.spawn (OS.boot env)).2.trace) := by
  rcases spawn_cases self env with ⟨_, h0⟩ | ⟨cwd0, _, ⟨hr, h1⟩ | ⟨_, _, hr, h1⟩ |
    ⟨_, _, _, _, hr, h1⟩ | ⟨_, _, _, _, hr, h1⟩ | ⟨r1, w1, r2, w2, hr, h1⟩ |
    ⟨r1, w1, r2, w2, hp, ht, hr, h1, _⟩⟩
  · rw [h0]
    simp [OS.boot]
  · rw [h1, hr]
    simp
  · rw [h1, hr]
    simp
  · rw [h1, hr]
    simp
  · rw [h1, hr]
    simp
  · rw [h1]
    refine ⟨?_, by simp⟩
    intro cmdline b cwd i o e r hmem
    simp at hmem
    obtain ⟨rfl, rfl, rfl, rfl, rfl, rfl, rfl⟩ := hmem
    exact ⟨r1, _, r2, _, _, rfl, rfl, rfl, rfl⟩
  · rw [h1]
    refine ⟨?_, by simp⟩
    intro cmdline b cwd i o e r hmem
    simp at hmem
    obtain ⟨rfl, rfl, rfl, rfl, rfl, rfl, rfl⟩ := hmem
    exact ⟨r1, _, r2, _, [], rfl, rfl, rfl, rfl⟩

/-- Claim C10, at `cmd.exe /c echo Hello World`: the child gets the write-ends 5 and 7
and no standard input, after the read-ends 4 and 6 were marked; and when the
first marking fails `spawn` throws without calling `CreateProcess`. -/
theorem spawn_wiring_witness :
    (∃ r1 w1 r2 w2 post,
      (echo_impl.spawn (OS.boot (env_ok 0 [] []))).2.trace =
        [Event.CreatePipe true (some (r1, w1)), Event.CreatePipe true (some (r2, w2)),
          Event.SetHandleInformation r1 HANDLE_FLAG_INHERIT 0 true,
          Event.SetHandleInformation r2 HANDLE_FLAG_INHERIT 0 true,
          Event.CreateProcess "cmd.exe /c echo Hello World" true "C:/work/./" 0 5 7
            (some (8, 9))] ++ post ∧
      (0 : HANDLE) = NULL ∧ 5 = w1 ∧ 7 = w2) ∧
    ((∃ ex, (echo_impl.spawn (OS.boot { env_ok 0 [] [] with setInfoResults := [false] })).1 =
        Run.threw ex) ∧
      ∀ cmdline b cwd i o e r, Event.CreateProcess cmdline b cwd i o e r ∉
        (echo_impl.spawn (OS.boot { env_ok 0 [] [] with setInfoResults := [false] })).2.trace) :=
  ⟨(spawn_wiring echo_impl (env_ok 0 [] [])).1 "cmd.exe /c echo Hello World" true "C:/work/./"
      0 5 7 (some (8, 9)) (by decide),
    (spawn_wiring echo_impl { env_ok 0 [] [] with setInfoResults := [false] }).2 4
      HANDLE_FLAG_INHERIT 0 (by decide)⟩

/-- Claim C5. When a step of `spawn` fails (a pipe cannot be created, a read-end cannot
be marked, the process cannot be created), `spawn` throws, and its calls are some
calls that close nothing followed by closes only: every pipe end the first part
created is closed in the second part, and every close there is given an end
created in the first part, or else the null value a never-filled field holds,
which is no handle. -/
theorem spawn_failure_releases_pipes (self : Impl) (env : Env)
    (hfail : ∃ ev ∈ (self.spawn (OS.boot env)).2.trace, ev.failed = true) :
    (∃ ex, (self.spawn (OS.boot env)).1 = Run.threw ex) ∧
    ∃ calls closes,
      (self.spawn (OS.boot env)).2.trace = calls ++ closes ∧
      (∀ ev ∈ calls, ev.isClose = false) ∧
      (∀ ev ∈ closes, ev.isClose = true) ∧
      (∀ b r w, Event.CreatePipe b (some (r, w)) ∈ calls →
        Event.CloseHandle r ∈ closes ∧ Event.CloseHandle w ∈ closes) ∧
      (∀ h, Event.CloseHandle h ∈ closes →
        h = NULL ∨ ∃ b r w, Event.CreatePipe b (some (r, w)) ∈ calls ∧ (h = r ∨ h = w)) := by
  obtain ⟨ev, hev, hf⟩ := hfail
  rcases spawn_cases self env with ⟨_, h0⟩ | ⟨cwd0, _, ⟨hr, h1⟩ | ⟨r1, w1, hr, h1⟩ |
    ⟨r1, w1, r2, w2, hr, h1⟩ | ⟨r1, w1, r2, w2, hr, h1⟩ | ⟨r1, w1, r2, w2, hr, h1⟩ |
    ⟨r1, w1, r2, w2, hp, ht, hr, h1, _⟩⟩
  · rw [h0] at hev
    simp [OS.boot] at hev
  · rw [h1, hr]
    refine ⟨⟨_, rfl⟩, [Event.CreatePipe true none], List.replicate 4 (Event.CloseHandle NULL),
      rfl, ?_⟩
    simp [Event.isClose, List.replicate]
  · rw [h1, hr]
    refine ⟨⟨_, rfl⟩, [Event.CreatePipe true (some (r1, w1)), Event.CreatePipe true none],
      [Event.CloseHandle NULL, Event.CloseHandle NULL, Event.CloseHandle r1,
        Event.CloseHandle w1], rfl, ?_⟩
    simp [Event.isClose]
    exact ⟨Or.inr ⟨r1, w1, ⟨rfl, rfl⟩, Or.inl rfl⟩, Or.inr ⟨r1, w1, ⟨rfl, rfl⟩, Or.inr rfl⟩⟩
  · rw [h1, hr]
    refine ⟨⟨_, rfl⟩, [Event.CreatePipe true (some (r1, w1)),
      Event.CreatePipe true (some (r2, w2)),
      Event.SetHandleInformation r1 HANDLE_FLAG_INHERIT 0 false],
      [Event.CloseHandle r2, Event.CloseHandle w2, Event.CloseHandle r1,
        Event.CloseHandle w1], rfl, ?_⟩
    simp [Event.isClose]
    refine ⟨?_, Or.inr ⟨r2, w2, Or.inr ⟨rfl, rfl⟩, Or.inl rfl⟩,
      Or.inr ⟨r2, w2, Or.inr ⟨rfl, rfl⟩, Or.inr rfl⟩,
      Or.inr ⟨r1, w1, Or.inl ⟨rfl, rfl⟩, Or.inl rfl⟩,
      Or.inr ⟨r1, w1, Or.inl ⟨rfl, rfl⟩, Or.inr rfl⟩⟩
    rintro r w (⟨rfl, rfl⟩ | ⟨rfl, rfl⟩) <;> simp
  · rw [h1, hr]
    refine ⟨⟨_, rfl⟩, [Event.CreatePipe true (some (r1, w1)),
      Event.CreatePipe true (some (r2, w2)),
      Event.SetHandleInformation r1 HANDLE_FLAG_INHERIT 0 true,
      Event.SetHandleInformation r2 HANDLE_FLAG_INHERIT 0 false],
      [Event.CloseHandle r2, Event.CloseHandle w2, Event.CloseHandle r1,
        Event.CloseHandle w1], rfl, ?_⟩
    simp [Event.isClose]
    refine ⟨?_, Or.inr ⟨r2, w2, Or.inr ⟨rfl, rfl⟩, Or.inl rfl⟩,
      Or.inr ⟨r2, w2, Or.inr ⟨rfl, rfl⟩, Or.inr rfl⟩,
      Or.inr ⟨r1, w1, Or.inl ⟨rfl, rfl⟩, Or.inl rfl⟩,
      Or.inr ⟨r1, w1, Or.inl ⟨rfl, rfl⟩, Or.inr rfl⟩⟩
    rintro r w (⟨rfl, rfl⟩ | ⟨rfl, rfl⟩) <;> simp
  · rw [h1, hr]
    refine ⟨⟨_, rfl⟩, [Event.CreatePipe true (some (r1, w1)),
      Event.CreatePipe true (some (r2, w2)),
      Event.SetHandleInformation r1 HANDLE_FLAG_INHERIT 0 true,
      Event.SetHandleInformation r2 HANDLE_FLAG_INHERIT 0 true,
      Event.CreateProcess self.cmd_str true cwd0 NULL w1 w2 none],
      [Event.CloseHandle r2, Event.CloseHandle w2, Event.CloseHandle r1,
        Event.CloseHandle w1], rfl, ?_⟩
    simp [Event.isClose]
    refine ⟨?_, Or.inr ⟨r2, w2, Or.inr ⟨rfl, rfl⟩, Or.inl rfl⟩,
      Or.inr ⟨r2, w2, Or.inr ⟨rfl, rfl⟩, Or.inr rfl⟩,
      Or.inr ⟨r1, w1, Or.inl ⟨rfl, rfl⟩, Or.inl rfl⟩,
      Or.inr ⟨r1, w1, Or.inl ⟨rfl, rfl⟩, Or.inr rfl⟩⟩
    rintro r w (⟨rfl, rfl⟩ | ⟨rfl, rfl⟩) <;> simp
  · rw [h1] at hev
    simp at hev
    rcases hev with rfl | rfl | rfl | rfl | rfl <;> simp [Event.failed] at hf

/-- Claim C5, when the second pipe cannot be created: `spawn` throws, the two ends 4 and
5 of the first pipe are closed, and the two other closes are given the null value. -/
theorem spawn_failure_releases_pipes_witness :
    (∃ ev ∈ (echo_impl.spawn (OS.boot { env_ok 0 [] [] with pipeResults := [some (4, 5)] })).2.trace,
      ev.failed = true) ∧
    (echo_impl.spawn (OS.boot { env_ok 0 [] [] with pipeResults := [some (4, 5)] })).2.trace =
      [Event.CreatePipe true (some (4, 5)), Event.CreatePipe true none,
        Event.CloseHandle 0, Event.CloseHandle 0, Event.CloseHandle 4, Event.CloseHandle 5] ∧
    ((∃ ex, (echo_impl.spawn
        (OS.boot { env_ok 0 [] [] with pipeResults := [some (4, 5)] })).1 = Run.threw ex) ∧
      ∃ calls closes,
        (echo_impl.spawn (OS.boot { env_ok 0 [] [] with pipeResults := [some (4, 5)] })).2.trace =
          calls ++ closes ∧
        (∀ ev ∈ calls, ev.isClose = false) ∧
        (∀ ev ∈ closes, ev.isClose = true) ∧
        (∀ b r w, Event.CreatePipe b (some (r, w)) ∈ calls →
          Event.CloseHandle r ∈ closes ∧ Event.CloseHandle w ∈ closes) ∧
        (∀ h, Event.CloseHandle h ∈ closes →
          h = NULL ∨ ∃ b r w, Event.CreatePipe b (some (r, w)) ∈ calls ∧ (h = r ∨ h = w))) :=
  ⟨⟨Event.CreatePipe true none, by decide, rfl⟩, by decide,
    spawn_failure_releases_pipes echo_impl { env_ok 0 [] [] with pipeResults := [some (4, 5)] }
      ⟨Event.CreatePipe true none, by decide, rfl⟩⟩

/-! ## `output`: what is captured and what is reported -/

/-- With `cmd.exe /c echo Hello World` in an environment where everything succeeds,
`stdout_str` is what the first read of the stdout pipe transferred, whatever the
pipe would deliver to later reads. -/
theorem output_keeps_first_read_only (code : Nat) (d : List Char)
    (more chunks_err : List (List Char)) :
    (echo_impl.output (OS.boot (env_ok code (d :: more) chunks_err))).1.bind
        (fun o => Run.returned o.stdout_str) =
      Run.returned (String.mk (d.take 4096)) := by
  cases chunks_err <;>
  simp [Impl.output, Impl.spawn, echo_impl, env_ok, OS.boot, CreatePipe, SetHandleInformation,
    CreateProcess, OS.log, wait_with_output, wait_loop, WaitForSingleObject, GetExitCodeProcess,
    ChildStdout.close_write, ChildStderr.close_write, ChildStdout.get_read, ChildStderr.get_read,
    CloseHandle, read_loop, ReadFile, Run.bind, List.take_take] <;>
  rcases Nat.le_total 4096 d.length with hle | hle
  · rw [Nat.min_eq_left hle]
  · rw [Nat.min_eq_right hle, List.take_of_length_le (Nat.le_refl _), List.take_of_length_le hle]
  · rw [Nat.min_eq_left hle]
  · rw [Nat.min_eq_right hle, List.take_of_length_le (Nat.le_refl _), List.take_of_length_le hle]

/-- Claim C1 fails on the code. A child that writes 4097 bytes, delivered as 4096 bytes
and then 1 byte: `stdout_str` holds the first 4096 bytes only, not the 4097 written. -/
theorem stdout_truncated_to_first_read :
    (echo_impl.output (OS.boot (env_ok 0 [List.replicate 4096 'x', ['y']] []))).1.bind
        (fun o => Run.returned o.stdout_str) =
      Run.returned (String.mk (List.replicate 4096 'x')) ∧
    String.mk (List.replicate 4096 'x') ≠ String.mk (List.replicate 4096 'x' ++ ['y']) := by
  constructor
  · rw [output_keeps_first_read_only, List.take_replicate, Nat.min_self]
  · intro h
    have hlen := congrArg (fun s => s.data.length) h
    simp only [List.length_append, List.length_replicate, List.length_singleton] at hlen
    omega

/-- After a successful `spawn`, `output` is `wait_with_output` on what `spawn` returned. -/
theorem output_eq_wait_with_output (self : Impl) (os : OS) (child : Child)
    (hspawn : (self.spawn os).1 = Run.returned child) :
    self.output os = wait_with_output child.process_ child.pipes_ (self.spawn os).2 := by
  unfold Impl.output
  rcases hsp : self.spawn os with ⟨r, os1⟩
  rw [hsp] at hspawn
  simp only at hspawn
  subst hspawn
  rfl

/-- Claim C2. When `spawn` succeeds and some poll sees the child terminated, `output`
returns, and the `status` it reports is the child's exit code, zero or not. The exit
code is queried once, by the call that follows the poll that answered
`WAIT_OBJECT_0`. -/
theorem output_status_is_exit_code (self : Impl) (env : Env) (child : Child)
    (hspawn : (self.spawn (OS.boot env)).1 = Run.returned child)
    (hterm : WaitResult.WAIT_OBJECT_0 ∈ env.waitResults)
    (hcode : env.exit_code < 2 ^ 32) :
    ∃ stdout_str stderr_str pre post h,
      (self.output (OS.boot env)).1 = Run.returned ⟨env.exit_code, stdout_str, stderr_str⟩ ∧
      (self.output (OS.boot env)).2.trace =
        pre ++ [Event.WaitForSingleObject h 100 WaitResult.WAIT_OBJECT_0,
          Event.GetExitCodeProcess h env.exit_code] ++ post ∧
      ∀ e ∈ pre ++ post, ∀ k c, e ≠ Event.GetExitCodeProcess k c := by
  rw [output_eq_wait_with_output self (OS.boot env) child hspawn]
  rcases spawn_cases self env with ⟨_, h0⟩ | ⟨cwd0, _, ⟨hr, _⟩ | ⟨_, _, hr, _⟩ |
    ⟨_, _, _, _, hr, _⟩ | ⟨_, _, _, _, hr, _⟩ | ⟨_, _, _, _, hr, _⟩ |
    ⟨r1, w1, r2, w2, hp, ht, hr, h1, _, hw, hc, _, _⟩⟩
  · rw [h0] at hspawn
    cases hspawn
  · rw [hr] at hspawn
    cases hspawn
  · rw [hr] at hspawn
    cases hspawn
  · rw [hr] at hspawn
    cases hspawn
  · rw [hr] at hspawn
    cases hspawn
  · rw [hr] at hspawn
    cases hspawn
  · rw [hr] at hspawn
    cases hspawn
    rcases wait_with_output_shape ⟨hp, ht⟩ none ⟨r1, w1⟩ ⟨r2, w2⟩ (self.spawn (OS.boot env)).2
      with ⟨hf, _⟩ | ⟨_, ws, rs1, rs2, cl, so, se, hres, htr, hws, hrs1, _, hrs2, _, hcl, _⟩
    · have := wait_loop_returns hp (self.spawn (OS.boot env)).2.env.waitResults.length
        (self.spawn (OS.boot env)).2 (by rw [hw]; exact hterm) (Nat.le_refl _)
      rw [this] at hf
      cases hf
    · rw [hc, Nat.mod_eq_of_lt hcode] at hres
      rw [hc] at htr
      refine ⟨so, se, (self.spawn (OS.boot env)).2.trace ++ ws,
        [Event.CloseHandle w1, Event.CloseHandle w2] ++ rs1 ++ rs2 ++ cl, hp, hres, ?_, ?_⟩
      · rw [htr]
        simp
      · intro e he k c hk
        subst hk
        simp only [List.mem_append] at he
        rcases he with (he | he) | ((he | he) | he) | he
        · rw [h1] at he
          simp at he
        · obtain ⟨_, h'⟩ := hws _ he
          cases h'
        · simp at he
        · obtain ⟨_, _, h'⟩ := hrs1 _ he
          cases h'
        · obtain ⟨_, _, h'⟩ := hrs2 _ he
          cases h'
        · obtain ⟨_, h'⟩ := hcl _ he
          cases h'

/-- Claim C2, at `cmd.exe /c echo Hello World` with a child that exits with code 3:
`output` reports status 3. -/
theorem output_status_is_exit_code_witness :
    (echo_impl.spawn (OS.boot (env_ok 3 [] []))).1 =
        Run.returned ⟨some ⟨8, 9⟩, ⟨none, some ⟨4, 5⟩, some ⟨6, 7⟩⟩⟩ ∧
      WaitResult.WAIT_OBJECT_0 ∈ (env_ok 3 [] []).waitResults ∧
      (env_ok 3 [] []).exit_code < 2 ^ 32 ∧
      (echo_impl.output (OS.boot (env_ok 3 [] []))).1 = Run.returned ⟨3, "", ""⟩ ∧
      ∃ stdout_str stderr_str pre post h,
        (echo_impl.output (OS.boot (env_ok 3 [] []))).1 =
          Run.returned ⟨(env_ok 3 [] []).exit_code, stdout_str, stderr_str⟩ ∧
        (echo_impl.output (OS.boot (env_ok 3 [] []))).2.trace =
          pre ++ [Event.WaitForSingleObject h 100 WaitResult.WAIT_OBJECT_0,
            Event.GetExitCodeProcess h (env_ok 3 [] []).exit_code] ++ post ∧
        ∀ e ∈ pre ++ post, ∀ k c, e ≠ Event.GetExitCodeProcess k c :=
  ⟨by decide, by decide, by decide, by decide,
    output_status_is_exit_code echo_impl (env_ok 3 [] []) _
      (by decide : (echo_impl.spawn (OS.boot (env_ok 3 [] []))).1 =
        Run.returned ⟨some ⟨8, 9⟩, ⟨none, some ⟨4, 5⟩, some ⟨6, 7⟩⟩⟩)
      (by decide) (by decide)⟩

/-- In every run of `wait_with_output` that returns, `CloseHandle` is called on the
stdout write-end at two places of the trace, and on the stderr write-end at two
places: the call of `close_write`, and the destructor. -/
theorem write_ends_closed_twice_in_every_run (p : Process) (sin : Option ChildStdin)
    (out : ChildStdout) (err : ChildStderr) (os : OS) (o : Output)
    (hret : (wait_with_output (some p) ⟨sin, some out, some err⟩ os).1 = Run.returned o) :
    (∃ a b c, (wait_with_output (some p) ⟨sin, some out, some err⟩ os).2.trace =
      a ++ Event.CloseHandle out.w_ :: b ++ Event.CloseHandle out.w_ :: c) ∧
    (∃ a b c, (wait_with_output (some p) ⟨sin, some out, some err⟩ os).2.trace =
      a ++ Event.CloseHandle err.w_ :: b ++ Event.CloseHandle err.w_ :: c) := by
  rcases wait_with_output_shape p sin out err os with
    ⟨_, hd, _⟩ | ⟨_, ws, rs1, rs2, cl, so, se, _, htr, _, _, _, _, _, _, mid, rfl⟩
  · rw [hd] at hret
    cases hret
  · rw [htr]
    constructor
    · exact ⟨os.trace ++ ws ++
          [Event.WaitForSingleObject p.handle_ 100 WaitResult.WAIT_OBJECT_0,
            Event.GetExitCodeProcess p.handle_ os.env.exit_code],
        [Event.CloseHandle err.w_] ++ rs1 ++ rs2 ++
          [Event.CloseHandle err.r_, Event.CloseHandle err.w_, Event.CloseHandle out.r_],
        mid ++ [Event.CloseHandle p.handle_, Event.CloseHandle p.thread_handle_],
        by simp⟩
    · exact ⟨os.trace ++ ws ++
          [Event.WaitForSingleObject p.handle_ 100 WaitResult.WAIT_OBJECT_0,
            Event.GetExitCodeProcess p.handle_ os.env.exit_code, Event.CloseHandle out.w_],
        rs1 ++ rs2 ++ [Event.CloseHandle err.r_],
        [Event.CloseHandle out.r_, Event.CloseHandle out.w_] ++ mid ++
          [Event.CloseHandle p.handle_, Event.CloseHandle p.thread_handle_],
        by simp⟩

/-- Claim C4 fails on the code. In a run of `output` where everything succeeds, the
stdout write-end 5 and the stderr write-end 7 are each given to `CloseHandle`
twice: once by `close_write`, once by the destructor of the object that holds
them. The two read-ends are closed once. -/
theorem write_ends_closed_twice :
    (echo_impl.output (OS.boot (env_ok 0 [] []))).2.trace =
      [Event.CreatePipe true (some (4, 5)), Event.CreatePipe true (some (6, 7)),
        Event.SetHandleInformation 4 1 0 true, Event.SetHandleInformation 6 1 0 true,
        Event.CreateProcess "cmd.exe /c echo Hello World" true "C:/work/./" 0 5 7 (some (8, 9)),
        Event.WaitForSingleObject 8 100 WaitResult.WAIT_TIMEOUT,
        Event.WaitForSingleObject 8 100 WaitResult.WAIT_OBJECT_0,
        Event.GetExitCodeProcess 8 0,
        Event.CloseHandle 5, Event.CloseHandle 7,
        Event.ReadFile 4 4096 false [], Event.ReadFile 6 4096 false [],
        Event.CloseHandle 6, Event.CloseHandle 7, Event.CloseHandle 4, Event.CloseHandle 5,
        Event.CloseHandle 8, Event.CloseHandle 9] ∧
    (echo_impl.output (OS.boot (env_ok 0 [] []))).2.trace.count (Event.CloseHandle 5) = 2 ∧
    (echo_impl.output (OS.boot (env_ok 0 [] []))).2.trace.count (Event.CloseHandle 7) = 2 ∧
    (echo_impl.output (OS.boot (env_ok 0 [] []))).2.trace.count (Event.CloseHandle 4) = 1 ∧
    (echo_impl.output (OS.boot (env_ok 0 [] []))).2.trace.count (Event.CloseHandle 6) = 1 := by
  decide

/-! ## `wait_with_output`: the order of the calls -/

/-- When a list starts with a part `A` in which nothing satisfies `P`, whatever
stands before an element that satisfies `P` contains all of `A`. -/
theorem mem_before_of_split {α : Type} (P : α → Prop) (A B pre post : List α) (e : α)
    (hA : ∀ a ∈ A, ¬ P a) (he : P e) (h : A ++ B = pre ++ e :: post) :
    ∀ x ∈ A, x ∈ pre := by
  induction A generalizing pre with
  | nil => intro x hx; cases hx
  | cons a A ih =>
    cases pre with
    | nil =>
      simp only [List.cons_append, List.nil_append, List.cons.injEq] at h
      exact absurd (h.1 ▸ he) (hA a (List.mem_cons_self _ _))
    | cons q pre =>
      simp only [List.cons_append, List.cons.injEq] at h
      obtain ⟨rfl, h⟩ := h
      intro x hx
      rcases List.mem_cons.mp hx with rfl | hx
      · exact List.mem_cons_self _ _
      · exact List.mem_cons_of_mem _
          (ih pre (fun b hb => hA b (List.mem_cons_of_mem _ hb)) h x hx)

/-- Claim C9. In every run of `wait_with_output`, whatever read is made on the stdout
read-end, `CloseHandle` was called on the stdout write-end before it; and the same
for stderr. -/
theorem write_end_closed_before_reads (p : Process) (sin : Option ChildStdin)
    (out : ChildStdout) (err : ChildStderr) (env : Env) :
    (∀ pre post n s d,
      (wait_with_output (some p) ⟨sin, some out, some err⟩ (OS.boot env)).2.trace =
        pre ++ Event.ReadFile out.r_ n s d :: post →
      Event.CloseHandle out.w_ ∈ pre) ∧
    (∀ pre post n s d,
      (wait_with_output (some p) ⟨sin, some out, some err⟩ (OS.boot env)).2.trace =
        pre ++ Event.ReadFile err.r_ n s d :: post →
      Event.CloseHandle err.w_ ∈ pre) := by
  have key : ∀ pre post k n s d,
      (wait_with_output (some p) ⟨sin, some out, some err⟩ (OS.boot env)).2.trace =
        pre ++ Event.ReadFile k n s d :: post →
      Event.CloseHandle out.w_ ∈ pre ∧ Event.CloseHandle err.w_ ∈ pre := by
    intro pre post k n s d hsplit
    rcases wait_with_output_shape p sin out err (OS.boot env) with
      ⟨_, _, ws, htr, hws⟩ | ⟨_, ws, rs1, rs2, cl, so, se, _, htr, hws, _⟩
    · rw [htr] at hsplit
      have hmem : Event.ReadFile k n s d ∈ ws := by
        have : Event.ReadFile k n s d ∈ (OS.boot env).trace ++ ws := by
          rw [hsplit]
          simp
        simpa [OS.boot] using this
      obtain ⟨_, h'⟩ := hws _ hmem
      cases h'
    · rw [htr] at hsplit
      simp only [OS.boot, List.nil_append, List.append_assoc] at hsplit
      have hA : ∀ a ∈ ws ++ [Event.WaitForSingleObject p.handle_ 100 WaitResult.WAIT_OBJECT_0,
          Event.GetExitCodeProcess p.handle_ env.exit_code,
          Event.CloseHandle out.w_, Event.CloseHandle err.w_],
          ¬ (∃ k n s d, a = Event.ReadFile k n s d) := by
        intro a ha
        simp only [List.mem_append, List.mem_cons, List.mem_singleton] at ha
        rintro ⟨_, _, _, _, rfl⟩
        rcases ha with ha | ha | ha | ha | ha | ha
        · obtain ⟨_, h'⟩ := hws _ ha
          cases h'
        all_goals cases ha
      have hall := mem_before_of_split (fun a => ∃ k n s d, a = Event.ReadFile k n s d)
        _ (rs1 ++ (rs2 ++ cl)) pre post _ hA ⟨k, n, s, d, rfl⟩
        (by rw [← hsplit]; simp)
      exact ⟨hall _ (by simp), hall _ (by simp)⟩
  exact ⟨fun pre post n s d h => (key pre post _ n s d h).1,
    fun pre post n s d h => (key pre post _ n s d h).2⟩

/-- Claim C9, at a run on the pipes 4, 5 and 6, 7 and the process 8: the read of the
stdout read-end 4 comes after the close of the write-end 5, and the read of the
stderr read-end 6 after the close of the write-end 7. -/
theorem write_end_closed_before_reads_witness :
    (wait_with_output (some ⟨8, 9⟩) ⟨none, some ⟨4, 5⟩, some ⟨6, 7⟩⟩
        (OS.boot (env_ok 0 [['o', 'k']] []))).2.trace =
      [Event.WaitForSingleObject 8 100 WaitResult.WAIT_TIMEOUT,
        Event.WaitForSingleObject 8 100 WaitResult.WAIT_OBJECT_0,
        Event.GetExitCodeProcess 8 0, Event.CloseHandle 5, Event.CloseHandle 7] ++
      Event.ReadFile 4 4096 true ['o', 'k'] ::
      [Event.ReadFile 6 4096 false [],
        Event.CloseHandle 6, Event.CloseHandle 7, Event.CloseHandle 4, Event.CloseHandle 5,
        Event.CloseHandle 8, Event.CloseHandle 9] ∧
    Event.CloseHandle 5 ∈
      [Event.WaitForSingleObject 8 100 WaitResult.WAIT_TIMEOUT,
        Event.WaitForSingleObject 8 100 WaitResult.WAIT_OBJECT_0,
        Event.GetExitCodeProcess 8 0, Event.CloseHandle 5, Event.CloseHandle 7] ∧
    Event.CloseHandle 7 ∈
      [Event.WaitForSingleObject 8 100 WaitResult.WAIT_TIMEOUT,
        Event.WaitForSingleObject 8 100 WaitResult.WAIT_OBJECT_0,
        Event.GetExitCodeProcess 8 0, Event.CloseHandle 5, Event.CloseHandle 7,
        Event.ReadFile 4 4096 true ['o', 'k']] :=
  ⟨by decide,
    (write_end_closed_before_reads ⟨8, 9⟩ none ⟨4, 5⟩ ⟨6, 7⟩ (env_ok 0 [['o', 'k']] [])).1
      [Event.WaitForSingleObject 8 100 WaitResult.WAIT_TIMEOUT,
        Event.WaitForSingleObject 8 100 WaitResult.WAIT_OBJECT_0,
        Event.GetExitCodeProcess 8 0, Event.CloseHandle 5, Event.CloseHandle 7]
      [Event.ReadFile 6 4096 false [],
        Event.CloseHandle 6, Event.CloseHandle 7, Event.CloseHandle 4, Event.CloseHandle 5,
        Event.CloseHandle 8, Event.CloseHandle 9] 4096 true ['o', 'k'] (by decide),
    (write_end_closed_before_reads ⟨8, 9⟩ none ⟨4, 5⟩ ⟨6, 7⟩ (env_ok 0 [['o', 'k']] [])).2
      [Event.WaitForSingleObject 8 100 WaitResult.WAIT_TIMEOUT,
        Event.WaitForSingleObject 8 100 WaitResult.WAIT_OBJECT_0,
        Event.GetExitCodeProcess 8 0, Event.CloseHandle 5, Event.CloseHandle 7,
        Event.ReadFile 4 4096 true ['o', 'k']]
      [Event.CloseHandle 6, Event.CloseHandle 7, Event.CloseHandle 4, Event.CloseHandle 5,
        Event.CloseHandle 8, Event.CloseHandle 9] 4096 false [] (by decide)⟩

/-- In every run of `wait_with_output` that returns, the calls are, in this order:
the polls of the process, the last of which answers `WAIT_OBJECT_0`; the query of
the exit code; the close of the stdout write-end; the close of the stderr
write-end; the reads of the stdout read-end, at least one; the reads of the stderr
read-end, at least one; then the closes of the destructors, among them the two
ends of each pipe and the two handles of the process. -/
theorem wait_with_output_order (p : Process) (sin : Option ChildStdin)
    (out : ChildStdout) (err : ChildStderr) (env : Env) (o : Output)
    (hret : (wait_with_output (some p) ⟨sin, some out, some err⟩ (OS.boot env)).1 =
      Run.returned o) :
    ∃ ws rs1 rs2 cl,
      (wait_with_output (some p) ⟨sin, some out, some err⟩ (OS.boot env)).2.trace =
        ws ++
          [Event.WaitForSingleObject p.handle_ 100 WaitResult.WAIT_OBJECT_0,
            Event.GetExitCodeProcess p.handle_ env.exit_code,
            Event.CloseHandle out.w_, Event.CloseHandle err.w_] ++ rs1 ++ rs2 ++ cl ∧
      (∀ e ∈ ws, ∃ r, e = Event.WaitForSingleObject p.handle_ 100 r) ∧
      (∀ e ∈ rs1, ∃ s d, e = Event.ReadFile out.r_ 4096 s d) ∧ rs1 ≠ [] ∧
      (∀ e ∈ rs2, ∃ s d, e = Event.ReadFile err.r_ 4096 s d) ∧ rs2 ≠ [] ∧
      (∀ e ∈ cl, ∃ h, e = Event.CloseHandle h) ∧
      ∃ mid, cl =
        [Event.CloseHandle err.r_, Event.CloseHandle err.w_, Event.CloseHandle out.r_,
          Event.CloseHandle out.w_] ++ mid ++
        [Event.CloseHandle p.handle_, Event.CloseHandle p.thread_handle_] := by
  rcases wait_with_output_shape p sin out err (OS.boot env) with
    ⟨_, hd, _⟩ | ⟨_, ws, rs1, rs2, cl, so, se, _, htr, hrest⟩
  · rw [hd] at hret
    cases hret
  · refine ⟨ws, rs1, rs2, cl, ?_, hrest⟩
    rw [htr]
    simp [OS.boot]

/-- As long as no poll answers `WAIT_OBJECT_0`, `wait_with_output` does not return
and makes no call but polls: no write-end is closed and nothing is read from
either pipe, whatever the pipes hold. -/
theorem no_read_while_waiting (p : Process) (sin : Option ChildStdin)
    (out : ChildStdout) (err : ChildStderr) (os : OS)
    (hnot : WaitResult.WAIT_OBJECT_0 ∉ os.env.waitResults) :
    (wait_with_output (some p) ⟨sin, some out, some err⟩ os).1 = Run.diverges ∧
    ∃ ws, (wait_with_output (some p) ⟨sin, some out, some err⟩ os).2.trace = os.trace ++ ws ∧
      ∀ e ∈ ws, ∃ r, e = Event.WaitForSingleObject p.handle_ 100 r := by
  rcases wait_with_output_shape p sin out err os with ⟨_, hd, hws⟩ | ⟨ht, _⟩
  · exact ⟨hd, hws⟩
  · rw [wait_loop_never p.handle_ _ os hnot] at ht
    cases ht

/-- Claim C8 fails on the code. In a run on the pipes 4, 5 and 6, 7 and the process 8
whose child writes `ok` and exits, the first five calls are the two polls, the
exit-code query and the two closes of the write-ends, and only the sixth is a read:
the wait is started, and over, before any read is made, so the order the claim
states does not hold. And when the child holds data for the parent but is never
seen to terminate, as a child blocked on a full pipe is, the run only polls: it
never reads and never returns. -/
theorem wait_precedes_every_read :
    ((wait_with_output (some ⟨8, 9⟩) ⟨none, some ⟨4, 5⟩, some ⟨6, 7⟩⟩
        (OS.boot (env_ok 0 [['o', 'k']] []))).2.trace.take 7 =
      [Event.WaitForSingleObject 8 100 WaitResult.WAIT_TIMEOUT,
        Event.WaitForSingleObject 8 100 WaitResult.WAIT_OBJECT_0,
        Event.GetExitCodeProcess 8 0, Event.CloseHandle 5, Event.CloseHandle 7,
        Event.ReadFile 4 4096 true ['o', 'k'], Event.ReadFile 6 4096 false []]) ∧
    (¬ ∀ (i j : Nat) h n s d k ms r,
      (wait_with_output (some ⟨8, 9⟩) ⟨none, some ⟨4, 5⟩, some ⟨6, 7⟩⟩
        (OS.boot (env_ok 0 [['o', 'k']] []))).2.trace[i]? = some (Event.ReadFile h n s d) →
      (wait_with_output (some ⟨8, 9⟩) ⟨none, some ⟨4, 5⟩, some ⟨6, 7⟩⟩
        (OS.boot (env_ok 0 [['o', 'k']] []))).2.trace[j]? =
          some (Event.WaitForSingleObject k ms r) →
      i < j) ∧
    (wait_with_output (some ⟨8, 9⟩) ⟨none, some ⟨4, 5⟩, some ⟨6, 7⟩⟩
        (OS.boot { env_ok 0 [['o', 'k']] [] with
          waitResults := [WaitResult.WAIT_TIMEOUT, WaitResult.WAIT_TIMEOUT,
            WaitResult.WAIT_TIMEOUT] })).1 = Run.diverges ∧
    (wait_with_output (some ⟨8, 9⟩) ⟨none, some ⟨4, 5⟩, some ⟨6, 7⟩⟩
        (OS.boot { env_ok 0 [['o', 'k']] [] with
          waitResults := [WaitResult.WAIT_TIMEOUT, WaitResult.WAIT_TIMEOUT,
            WaitResult.WAIT_TIMEOUT] })).2.trace =
      [Event.WaitForSingleObject 8 100 WaitResult.WAIT_TIMEOUT,
        Event.WaitForSingleObject 8 100 WaitResult.WAIT_TIMEOUT,
        Event.WaitForSingleObject 8 100 WaitResult.WAIT_TIMEOUT] := by
  refine ⟨by decide, ?_, by decide, by decide⟩
  intro H
  have h50 := H 5 0 4 4096 true ['o', 'k'] 8 100 WaitResult.WAIT_TIMEOUT (by decide) (by decide)
  omega

end process
